import Mathlib

/-!
Shallow embedding of `pymatgen/phonon/gruneisen.py`
(`GruneisenParameter` and `GruneisenPhononBandStructure`), with theorems
settling the behavioural claims about `average_gruneisen`,
`thermal_conductivity_slack`, `acoustic_debye_temp` and the
dictionary round-trip of the band-structure container.

Arrays are modelled as nested lists of real numbers; the floating-point
scalars of the source become exact reals.  `frequencies` and `gruneisen`
carry the source's shape (num_modes, num_qpoints): the outer index is the
mode (band) index, the inner index the q-point index, exactly as the
constructor docstring states.  Fallible methods return `Except GrunError`.
-/

noncomputable section

namespace PmgGruneisen

/-- `scipy.constants.tera` (= 1e12). -/
def tera : ℝ := 1e12

/-- `scipy.constants.value("Boltzmann constant in Hz/K")` (CODATA 2018). -/
def kB_Hz_per_K : ℝ := 2.083661912e10

/-- `scipy.constants.value("Boltzmann constant in eV/K")` (CODATA 2018). -/
def kB_eV_per_K : ℝ := 8.617333262e-5

/-- `scipy.constants.k`, the Boltzmann constant in J/K (CODATA 2018). -/
def k_B : ℝ := 1.380649e-23

/-- `scipy.constants.hbar`, defined in scipy as `h / (2*pi)`. -/
def hbar : ℝ := 6.62607015e-34 / (2 * Real.pi)

/-- `pymatgen.core.units.amu_to_kg`, the atomic mass constant in kg
(external to this module; CODATA 2018 value). -/
def amu_to_kg : ℝ := 1.66053906660e-27

/-- A site of a pymatgen `Structure`: only the atomic mass of its species
is consumed by this module (`s.specie.atomic_mass`). -/
structure SiteModel where
  atomic_mass : ℝ

/-- The slice of a pymatgen `Structure` consumed by this module: its list
of sites and its unit-cell volume (in cubic angstrom). -/
structure StructureModel where
  sites : List SiteModel
  volume : ℝ

/-- The errors the embedded methods can raise.  `missingStructure` and
`missingMultiplicities` are the two `ValueError`s raised when a required
collaborator is absent; `invalidLimitFrequencies` is the `ValueError` for
an unrecognized `limit_frequencies`; `indexError` is the exception numpy
raises when fancy indexing goes out of bounds; `externalDosFailure` is an
exception escaping the external phonopy `TotalDos` service when `tdos`
hands it `weights = self.multiplicities = None` (it is not one of this
module's own `ValueError`s). -/
inductive GrunError where
  | missingStructure
  | missingMultiplicities
  | invalidLimitFrequencies (value : String)
  | indexError
  | externalDosFailure
deriving DecidableEq

/-- The message attached to each raised error, as in the source. -/
def errorMessage : GrunError → String
  | .missingStructure => "Structure is not defined."
  | .missingMultiplicities => "Multiplicities are not defined."
  | .invalidLimitFrequencies v => v ++ " is not an accepted value for limit_frequencies."
  | .indexError => "index out of bounds"
  | .externalDosFailure => "external DOS service failure"

/-- The two missing-data errors (required collaborator absent). -/
def GrunError.isMissingData : GrunError → Prop
  | .missingStructure => True
  | .missingMultiplicities => True
  | _ => False

/-- `GruneisenParameter.__init__` stores its arguments without validation.
`structure_` stands for the `structure` attribute (a Lean keyword).
`debye_temp_limit` is the value of the `debye_temp_limit` property: in the
source it is computed from the phonopy-built total DOS by scipy spline
integration (external numerical services), so it is carried here as an
abstract real-valued field of the analyzer. -/
structure GruneisenParameter where
  qpoints : List (List ℝ)
  gruneisen : List (List ℝ)
  frequencies : List (List ℝ)
  multiplicities : Option (List ℝ)
  structure_ : Option StructureModel
  debye_temp_limit : ℝ

/-- The Einstein heat capacity of one grid entry, in eV:
`np.choose(w > 0, (0, kB_eV * wdkt**2 * exp(wdkt) / (exp(wdkt) - 1)**2))`
with `wdkt = w * tera / (kB_Hz_per_K * t)`. -/
def einstein_cv (t w : ℝ) : ℝ :=
  if 0 < w then
    kB_eV_per_K * (w * tera / (kB_Hz_per_K * t)) ^ 2 *
      Real.exp (w * tera / (kB_Hz_per_K * t)) /
      (Real.exp (w * tera / (kB_Hz_per_K * t)) - 1) ^ 2
  else 0

/-- Row-major enumeration of the index pairs of a 2-D array given as a
list of rows (the order in which `np.where` lists indices). -/
def gridIndices (w : List (List ℝ)) : List (ℕ × ℕ) :=
  (List.range w.length).flatMap fun i => (List.range (w.getD i []).length).map fun j => (i, j)

/-- Entry `a[i][j]` of a 2-D array (defaulting out-of-range reads to 0;
all reads performed by the embedded methods are in range). -/
def at2 (a : List (List ℝ)) (ij : ℕ × ℕ) : ℝ :=
  (a.getD ij.1 []).getD ij.2 0

/-- `GruneisenParameter.acoustic_debye_temp` as a relation to the
`debye_temp_limit` value (the frame of the claim about this property):
raises when `structure` is `None`, else returns
`debye_temp_limit / len(structure) ** (1 / 3)`.  The execution path of
the property access, including the external DOS service consulted by
`debye_temp_limit`, is `acoustic_debye_temp_run` below; the two agree
whenever `multiplicities` is present (`acoustic_debye_temp_run_eq`). -/
def acoustic_debye_temp (p : GruneisenParameter) : Except GrunError ℝ :=
  match p.structure_ with
  | none => .error .missingStructure
  | some s => .ok (p.debye_temp_limit / (s.sites.length : ℝ) ^ ((1 : ℝ) / 3))

/-- `GruneisenParameter.debye_temp_limit` as executed (source lines
200-210): it reads `self.tdos` (lines 177-193), which passes
`self.multiplicities` to the external phonopy `TotalDos` as the mesh
weights and integrates the resulting DOS curve with scipy splines.  When
`multiplicities` is `None` the call fails inside the external DOS
service (modelled as `externalDosFailure`), not with one of this
module's `ValueError`s; when they are present the spline-integral value
is the analyzer's abstract `debye_temp_limit` field. -/
def debye_temp_limit_run (p : GruneisenParameter) : Except GrunError ℝ :=
  match p.multiplicities with
  | none => .error .externalDosFailure
  | some _ => .ok p.debye_temp_limit

/-- The execution path of an access to `acoustic_debye_temp` (source
lines 231-238): the structure check comes first, then the
`debye_temp_limit` property runs (consulting the external DOS service),
and its value is divided by the cube root of the atom count. -/
def acoustic_debye_temp_run (p : GruneisenParameter) : Except GrunError ℝ :=
  match p.structure_ with
  | none => .error .missingStructure
  | some s => (debye_temp_limit_run p).map fun d => d / (s.sites.length : ℝ) ^ ((1 : ℝ) / 3)

/-- The `limit_frequencies` dispatch of `average_gruneisen` (source lines
113-122), producing the selected index set `ind`:
`np.where(w >= 0 & w <= acoustic_debye_freq)` for `"debye"` (requiring
`acoustic_debye_temp`, hence a structure), `np.where(w[:, :3] >= 0)` for
`"acoustic"` (the first three COLUMNS, i.e. q-point indices, of the
(modes, qpoints) array), `np.where(w >= 0)` for `None`, and a
`ValueError` naming the offending value otherwise. -/
def selectIndices (p : GruneisenParameter) (limit_frequencies : Option String) :
    Except GrunError (List (ℕ × ℕ)) :=
  let w := p.frequencies
  match limit_frequencies with
  | some "debye" =>
      (acoustic_debye_temp_run p).map fun adt =>
        (gridIndices w).filter fun ij =>
          decide (0 ≤ at2 w ij) && decide (at2 w ij ≤ adt * kB_Hz_per_K / tera)
  | some "acoustic" =>
      .ok ((gridIndices w).filter fun ij => decide (ij.2 < 3) && decide (0 ≤ at2 w ij))
  | none => .ok ((gridIndices w).filter fun ij => decide (0 ≤ at2 w ij))
  | some other => .error (.invalidLimitFrequencies other)

/-- The body of `average_gruneisen` after the default temperature has been
resolved (source lines 97-132): build the Einstein heat capacity array
`cv`, square `gamma` elementwise when `squared`, select `ind`, raise if
`multiplicities` is `None`, and return
`dot(weights[ind[0]], (cv*gamma)[ind]) / dot(weights[ind[0]], cv[ind])`,
where `ind[0]` is the list of FIRST (mode-axis) indices of the selected
entries, square-rooting the scalar when `squared`.  Indexing `weights` by
an out-of-range entry of `ind[0]` raises (numpy `IndexError`). -/
def average_gruneisen_core (p : GruneisenParameter) (tv : ℝ) (squared : Bool)
    (limit_frequencies : Option String) : Except GrunError ℝ :=
  let w := p.frequencies
  let cv := w.map (List.map (einstein_cv tv))
  let gamma := if squared then p.gruneisen.map (List.map (fun g => g ^ 2)) else p.gruneisen
  (selectIndices p limit_frequencies).bind fun ind =>
  (match p.multiplicities with
   | none => .error .missingMultiplicities
   | some ws => .ok ws : Except GrunError (List ℝ)).bind fun weights =>
  if ind.all fun ij => decide (ij.1 < weights.length) then
    let num := (ind.map fun ij => weights.getD ij.1 0 * (at2 cv ij * at2 gamma ij)).sum
    let den := (ind.map fun ij => weights.getD ij.1 0 * at2 cv ij).sum
    .ok (if squared then Real.sqrt (num / den) else num / den)
  else .error .indexError

/-- The `if x is None: x = self.acoustic_debye_temp` default used for the
temperature arguments of both `average_gruneisen` (line 94) and
`thermal_conductivity_slack` (line 163). -/
def resolveTemp (p : GruneisenParameter) (t : Option ℝ) : Except GrunError ℝ :=
  match t with
  | none => acoustic_debye_temp_run p
  | some tv => .ok tv

/-- `GruneisenParameter.average_gruneisen(t, squared, limit_frequencies)`:
resolve the default temperature from `acoustic_debye_temp` when `t` is
`None`, then run the averaging body. -/
def average_gruneisen (p : GruneisenParameter) (t : Option ℝ) (squared : Bool)
    (limit_frequencies : Option String) : Except GrunError ℝ :=
  (resolveTemp p t).bind fun tv =>
  average_gruneisen_core p tv squared limit_frequencies

/-- `GruneisenParameter.thermal_conductivity_slack(squared,
limit_frequencies, theta_d, t)`: requires `structure`; computes the mean
atomic mass in kg, resolves `theta_d` from `acoustic_debye_temp` when not
given, evaluates `average_gruneisen` at `theta_d`, forms the Slack factors
`f1`, `f2`, `f3` and returns their product, rescaled by `theta_d / t`
when a temperature `t` is given. -/
def thermal_conductivity_slack (p : GruneisenParameter) (squared : Bool)
    (limit_frequencies : Option String) (theta_d t : Option ℝ) : Except GrunError ℝ :=
  match p.structure_ with
  | none => .error .missingStructure
  | some s =>
    let average_mass := ((s.sites.map SiteModel.atomic_mass).sum / (s.sites.length : ℝ)) * amu_to_kg
    (resolveTemp p theta_d).bind fun θd =>
    (average_gruneisen p (some θd) squared limit_frequencies).bind fun mean_g =>
    let f1 := 0.849 * 3 * (4 : ℝ) ^ ((1 : ℝ) / 3) /
      (20 * Real.pi ^ 3 * (1 - 0.514 * mean_g⁻¹ + 0.228 * (mean_g ^ 2)⁻¹))
    let f2 := (k_B * θd / hbar) ^ 2
    let f3 := k_B * average_mass * s.volume ^ ((1 : ℝ) / 3) * 1e-10 / (hbar * mean_g ^ 2)
    let thermal_cond := f1 * f2 * f3
    .ok (match t with
         | none => thermal_cond
         | some tv => thermal_cond * (θd / tv))


/-! ## Concrete grids for the indexing claims -/

/-- A 3-mode / 2-q-point grid (one atom, two grid points), all
frequencies 1 THz, per-q-point multiplicities `[1, 1]`. -/
def grid32 : GruneisenParameter where
  qpoints := [[0, 0, 0], [0, 0, 0]]
  gruneisen := [[1, 1], [1, 1], [1, 1]]
  frequencies := [[1, 1], [1, 1], [1, 1]]
  multiplicities := some [1, 1]
  structure_ := none
  debye_temp_limit := 0

/-- A 4-mode / 4-q-point grid, all frequencies 1 THz, multiplicities all
1, whose gruneisen array is zero except for the entry of MODE index 3
(beyond the acoustic branches) at q-point 0, which is 12. -/
def gridAc : GruneisenParameter where
  qpoints := [[0, 0, 0], [0, 0, 0], [0, 0, 0], [0, 0, 0]]
  gruneisen := [[0, 0, 0, 0], [0, 0, 0, 0], [0, 0, 0, 0], [12, 0, 0, 0]]
  frequencies := [[1, 1, 1, 1], [1, 1, 1, 1], [1, 1, 1, 1], [1, 1, 1, 1]]
  multiplicities := some [1, 1, 1, 1]
  structure_ := none
  debye_temp_limit := 0

/-- `gridAc` with the mode-3 gruneisen entry zeroed: the two grids agree
on every mode of index < 3 (rows 0-2 are identical). -/
def gridAcZero : GruneisenParameter where
  qpoints := [[0, 0, 0], [0, 0, 0], [0, 0, 0], [0, 0, 0]]
  gruneisen := [[0, 0, 0, 0], [0, 0, 0, 0], [0, 0, 0, 0], [0, 0, 0, 0]]
  frequencies := [[1, 1, 1, 1], [1, 1, 1, 1], [1, 1, 1, 1], [1, 1, 1, 1]]
  multiplicities := some [1, 1, 1, 1]
  structure_ := none
  debye_temp_limit := 0

/-- A one-site structure of atomic mass 1 amu and unit volume. -/
def structW : StructureModel where
  sites := [{ atomic_mass := 1 }]
  volume := 1

/-- A 1-mode / 1-q-point analyzer with a (negative) frequency of -1 THz,
a structure and multiplicities present: every selection is empty, so
`average_gruneisen` returns the empty reduction 0/0. -/
def gridW : GruneisenParameter where
  qpoints := [[0, 0, 0]]
  gruneisen := [[0]]
  frequencies := [[-1]]
  multiplicities := some [1]
  structure_ := some structW
  debye_temp_limit := 1

/-- A 1-mode / 1-q-point analyzer with neither multiplicities nor a
structure. -/
def gridBare : GruneisenParameter where
  qpoints := [[0, 0, 0]]
  gruneisen := [[2]]
  frequencies := [[1]]
  multiplicities := none
  structure_ := none
  debye_temp_limit := 0

/-- A 1-mode / 1-q-point analyzer with a structure present but no
multiplicities. -/
def gridDebyeBare : GruneisenParameter where
  qpoints := [[0, 0, 0]]
  gruneisen := [[1]]
  frequencies := [[1]]
  multiplicities := none
  structure_ := some structW
  debye_temp_limit := 1

/-- Elementwise map over a 4-level nested list (the shape of the
eigendisplacement array: modes x qpoints x atoms x 3). -/
def map4 {α β : Type} (f : α → β) (x : List (List (List (List α)))) :
    List (List (List (List β))) :=
  x.map (List.map (List.map (List.map f)))

/-- Elementwise zip of two 4-level nested lists of the same shape. -/
def zipWith4 {α β γ : Type} (f : α → β → γ) (x : List (List (List (List α))))
    (y : List (List (List (List β)))) : List (List (List (List γ))) :=
  List.zipWith (List.zipWith (List.zipWith (List.zipWith f))) x y

/-- Modelled from the spec: the fields of `GruneisenPhononBandStructure`.
The base container `PhononBandStructure` (pymatgen.phonon.bandstructure,
not part of this module's source) stores, per the spec's base-collaborator
contract, the reciprocal lattice (`lattice_rec`, determined by its 3x3
matrix), the q-points (each convertible to fractional coordinates), the
frequency array as `bands`, the label-to-qpoint map `labels_dict`, the
complex eigendisplacement array and the optional structure; the subclass
adds the `gruneisen` array verbatim.  Fractional coordinates are length-3
real vectors (`coords_are_cartesian=False`, the default). -/
structure GruneisenPhononBandStructure where
  lattice_rec : List (List ℝ)
  qpoints : List (List ℝ)
  bands : List (List ℝ)
  labels_dict : List (String × List ℝ)
  eigendisplacements : List (List (List (List ℂ)))
  gruneisen : List (List ℝ)
  structure_ : Option StructureModel

/-- Modelled from the spec: the persisted dictionary schema
`{lattice_rec: <lattice dict>, qpoints, bands, labels_dict,
eigendisplacements: {real, imag}, gruneisen, structure?}`.  The lattice
dict is determined by its `matrix`; the optional `structure` key is
`none` when the key is omitted; the structure payload round-trips
losslessly through `Structure.as_dict`/`from_dict` (external collaborator)
and is carried here as the `StructureModel` itself. -/
structure BandStructureDict where
  lattice_rec_matrix : List (List ℝ)
  qpoints : List (List ℝ)
  bands : List (List ℝ)
  labels_dict : List (String × List ℝ)
  eigen_real : List (List (List (List ℝ)))
  eigen_imag : List (List (List (List ℝ)))
  gruneisen : List (List ℝ)
  structure_ : Option StructureModel

/-- `GruneisenPhononBandStructure.as_dict`: serializes the lattice matrix,
the fractional coordinates of each q-point and of each labelled q-point,
the `bands` and `gruneisen` arrays, the eigendisplacements split into real
and imaginary parts, and the structure's dict only when a structure is
present (`if self.structure:`). -/
def as_dict (bs : GruneisenPhononBandStructure) : BandStructureDict where
  lattice_rec_matrix := bs.lattice_rec
  qpoints := bs.qpoints
  bands := bs.bands
  labels_dict := bs.labels_dict
  eigen_real := map4 Complex.re bs.eigendisplacements
  eigen_imag := map4 Complex.im bs.eigendisplacements
  gruneisen := bs.gruneisen
  structure_ := bs.structure_

/-- `GruneisenPhononBandStructure.from_dict`: rebuilds the lattice from
its matrix, reassembles the complex eigendisplacements as
`real + imag * 1j`, rebuilds the structure when the `structure` key is
present (else `None`), and passes qpoints/bands/gruneisen/labels through
the constructor, which stores them. -/
def from_dict (dct : BandStructureDict) : GruneisenPhononBandStructure where
  lattice_rec := dct.lattice_rec_matrix
  qpoints := dct.qpoints
  bands := dct.bands
  labels_dict := dct.labels_dict
  eigendisplacements :=
    zipWith4 (fun (a b : ℝ) => (a : ℂ) + (b : ℂ) * Complex.I) dct.eigen_real dct.eigen_imag
  gruneisen := dct.gruneisen
  structure_ := dct.structure_
/-- A concrete one-band, one-q-point annotated band structure carrying
eigendisplacements and a label but no structure. -/
def bs0 : GruneisenPhononBandStructure where
  lattice_rec := [[1, 0, 0], [0, 1, 0], [0, 0, 1]]
  qpoints := [[0, 0, 0]]
  bands := [[1]]
  labels_dict := [("X", [0, 0, 0])]
  eigendisplacements := [[[[Complex.I, 0, 1]]]]
  gruneisen := [[2]]
  structure_ := none

/-! ## Helper lemmas -/

/-- The Einstein heat capacity is strictly positive at frequency 1 THz and
temperature 1 K. -/
theorem einstein_cv_one_pos : 0 < einstein_cv 1 1 := by
  unfold einstein_cv
  rw [if_pos (by norm_num : (0:ℝ) < 1)]
  have hx : (0:ℝ) < 1 * tera / (kB_Hz_per_K * 1) := by
    unfold tera kB_Hz_per_K; norm_num
  have h1 : 1 < Real.exp (1 * tera / (kB_Hz_per_K * 1)) := Real.one_lt_exp_iff.2 hx
  have hk : (0:ℝ) < kB_eV_per_K := by unfold kB_eV_per_K; norm_num
  apply div_pos
  · exact mul_pos (mul_pos hk (pow_pos hx 2)) (Real.exp_pos _)
  · exact pow_pos (by linarith) 2

/-- Squaring `gruneisen` elementwise does not change the selected index
set (it depends only on `frequencies` and the structure data). -/
theorem selectIndices_gruneisen_update (p : GruneisenParameter) (x : List (List ℝ))
    (lf : Option String) :
    selectIndices { p with gruneisen := x } lf = selectIndices p lf := rfl

/-- The averaging body with `squared := true` equals the square root of
the body applied with `squared := false` to the elementwise-squared
`gruneisen` array, whatever the outcome (errors are preserved). -/
theorem average_gruneisen_core_squared (p : GruneisenParameter) (tv : ℝ) (lf : Option String) :
    average_gruneisen_core p tv true lf =
      (average_gruneisen_core
        { p with gruneisen := p.gruneisen.map (List.map (fun g => g ^ 2)) } tv false lf).map
        Real.sqrt := by
  simp only [average_gruneisen_core, selectIndices_gruneisen_update]
  cases hI : selectIndices p lf with
  | error e => rfl
  | ok ind =>
      cases hw : p.multiplicities with
      | none => rfl
      | some ws =>
          simp only [Except.bind]
          by_cases hall : (ind.all fun ij => decide (ij.1 < ws.length)) = true
          · simp only [hall, if_true, if_pos]
            rfl
          · simp only [Bool.not_eq_true] at hall
            simp only [hall]
            rfl

/-- An unrecognized `limit_frequencies` string makes the dispatch raise
the invalid-argument error carrying the offending value. -/
theorem selectIndices_invalid (p : GruneisenParameter) (s : String)
    (hd : s ≠ "debye") (ha : s ≠ "acoustic") :
    selectIndices p (some s) = .error (.invalidLimitFrequencies s) := by
  simp only [selectIndices, hd, ha]

/-! ## Claim theorems -/

/-- C3: for every analyzer, temperature argument and limit_frequencies
selection, `average_gruneisen` with `squared=True` returns exactly the
square root of the value the same weighted average yields on the
elementwise-squared gruneisen array (squaring happens before averaging
and the square root is applied once to the final scalar); errors agree as
well, so in particular the relation holds whenever both calls succeed. -/
theorem average_gruneisen_squared_is_sqrt_of_squared_average
    (p : GruneisenParameter) (t : Option ℝ) (lf : Option String) :
    average_gruneisen p t true lf =
      (average_gruneisen
        { p with gruneisen := p.gruneisen.map (List.map (fun g => g ^ 2)) } t false lf).map
        Real.sqrt := by
  have hrt : resolveTemp
      { p with gruneisen := p.gruneisen.map (List.map (fun g => g ^ 2)) } t =
      resolveTemp p t := rfl
  simp only [average_gruneisen, hrt]
  cases h : resolveTemp p t with
  | error e => rfl
  | ok tv =>
      simp only [Except.bind]
      exact average_gruneisen_core_squared p tv lf


/-- C1: on a 3-mode / 2-q-point grid with multiplicities present, all
frequencies positive and `limit_frequencies=None`, `average_gruneisen`
does not return the q-point-weighted average the claim describes: it
raises, because `weights[ind[0]]` indexes the length-2 multiplicity array
by the mode-axis indices 0,1,2 of the selected entries and mode index 2
is out of range. -/
theorem average_gruneisen_grid32_raises_indexerror :
    average_gruneisen grid32 (some 1) false none = .error .indexError := by
  have hg : gridIndices grid32.frequencies = [(0,0),(0,1),(1,0),(1,1),(2,0),(2,1)] := rfl
  have hone : ∀ ij ∈ gridIndices grid32.frequencies, at2 grid32.frequencies ij = 1 := by
    rw [hg]; intro ij hij; fin_cases hij <;> rfl
  simp only [average_gruneisen, resolveTemp, average_gruneisen_core, selectIndices, grid32, Except.bind]
  rw [List.filter_eq_self.2 ?hsel]
  case hsel =>
    intro ij hij
    have h1 := hone ij (by simpa [grid32] using hij)
    simp only [grid32] at h1
    simp only [h1, decide_eq_true_eq]
    norm_num
  simp only [show gridIndices [[(1:ℝ),1],[1,1],[1,1]] = [(0,0),(0,1),(1,0),(1,1),(2,0),(2,1)] from rfl]
  norm_num [List.all_cons]

/-- C2: with `limit_frequencies="acoustic"`, the result of
`average_gruneisen` DOES depend on modes of index >= 3: `gridAc` and
`gridAcZero` agree on every entry of modes 0-2 (their gruneisen rows 0-2
are identical, all zero) yet the code returns 1 on the first and 0 on the
second, because `w[:, :3]` restricts to the first three q-point columns,
not the first three mode rows. -/
theorem average_gruneisen_acoustic_depends_on_mode_three :
    average_gruneisen gridAc (some 1) false (some "acoustic") = .ok 1 ∧
    average_gruneisen gridAcZero (some 1) false (some "acoustic") = .ok 0 := by
  have hone : ∀ ij ∈ gridIndices gridAc.frequencies, at2 gridAc.frequencies ij = 1 := by
    intro ij hij
    fin_cases hij <;> rfl
  have hfc : (gridIndices gridAc.frequencies).filter
      (fun ij => decide (ij.2 < 3) && decide (0 ≤ at2 gridAc.frequencies ij)) =
      [(0,0),(0,1),(0,2),(1,0),(1,1),(1,2),(2,0),(2,1),(2,2),(3,0),(3,1),(3,2)] := by
    rw [List.filter_congr (q := fun ij => decide (ij.2 < 3)) (fun ij hij => ?_)]
    · rfl
    · rw [hone ij hij, decide_eq_true (by norm_num : (0:ℝ) ≤ 1), Bool.and_true]
  simp only [gridAc] at hfc
  constructor
  · simp only [average_gruneisen, resolveTemp, average_gruneisen_core, selectIndices, gridAc,
      Except.bind, hfc]
    norm_num [at2, List.all_cons]
    rw [show (([(1:ℝ),1,1,1] : List ℝ)[1] : ℝ) = 1 from rfl]
    generalize hE : einstein_cv 1 1 = c
    have hcpos : 0 < c := hE ▸ einstein_cv_one_pos
    rw [show ∀ x : ℝ, (([[x,x,x,x],[x,x,x,x],[x,x,x,x],[x,x,x,x]] :
          List (List ℝ))[1][1]?.getD 0 : ℝ) = x from fun x => rfl]
    rw [show (([[0,0,0,0],[0,0,0,0],[0,0,0,0],[12,0,0,0]] :
          List (List ℝ))[1][1]?.getD 0 : ℝ) = 0 from rfl]
    have h1 : (1 * (c * 0) + c * 12 : ℝ) = 12 * c := by ring
    have h2 : (c + (c + (c + (c + (1 * c + (c + (c + (c + (c + (c + (c + c)))))))))) : ℝ) =
        12 * c := by ring
    rw [h1, h2, div_self (ne_of_gt (by linarith : (0:ℝ) < 12 * c))]
  · simp only [average_gruneisen, resolveTemp, average_gruneisen_core, selectIndices, gridAcZero,
      Except.bind, hfc]
    norm_num [at2, List.all_cons]
    rw [show (([[(0:ℝ),0,0,0],[0,0,0,0],[0,0,0,0],[0,0,0,0]] :
          List (List ℝ))[1][1]?.getD 0 : ℝ) = 0 from rfl]
    simp

/-- C4: for every analyzer with a structure, once the Slack-formula
temperature `theta_d` resolves to a value θ and the Grueneisen average at
θ succeeds with value `mg`, `thermal_conductivity_slack` (without a
rescaling temperature) returns exactly `f1 * f2 * f3` with
`f1 = 0.849*3*4^(1/3) / (20*pi^3*(1 - 0.514/mg + 0.228/mg^2))`,
`f2 = (k_B*θ/hbar)^2`, and
`f3 = k_B * average_mass * volume^(1/3) * 1e-10 / (hbar*mg^2)`, where
`average_mass` is the mean atomic mass over all sites in kilograms and
`theta_d` defaults to the acoustic Debye temperature when not given. -/
theorem thermal_conductivity_slack_formula (p : GruneisenParameter) (s : StructureModel)
    (sq : Bool) (lf : Option String) (theta_d : Option ℝ) (θ mg : ℝ)
    (hs : p.structure_ = some s)
    (hθ : resolveTemp p theta_d = .ok θ)
    (hg : average_gruneisen p (some θ) sq lf = .ok mg) :
    thermal_conductivity_slack p sq lf theta_d none =
      .ok (0.849 * 3 * (4 : ℝ) ^ ((1 : ℝ) / 3) /
          (20 * Real.pi ^ 3 * (1 - 0.514 * mg⁻¹ + 0.228 * (mg ^ 2)⁻¹)) *
        ((k_B * θ / hbar) ^ 2) *
        (k_B * (((s.sites.map SiteModel.atomic_mass).sum / (s.sites.length : ℝ)) * amu_to_kg) *
          s.volume ^ ((1 : ℝ) / 3) * 1e-10 / (hbar * mg ^ 2))) := by
  simp only [thermal_conductivity_slack, hs, hθ, Except.bind]
  simp only [hg, Except.bind]

/-- Witness for C4 at a concrete analyzer: the empty selection yields
`mean_g = 0`, and the Slack value is the formula's value at `mg = 0`,
`θ = 300`. -/
theorem thermal_conductivity_slack_formula_witness :
    thermal_conductivity_slack gridW false none (some 300) none =
      .ok (0.849 * 3 * (4 : ℝ) ^ ((1 : ℝ) / 3) /
          (20 * Real.pi ^ 3 * (1 - 0.514 * (0:ℝ)⁻¹ + 0.228 * ((0:ℝ) ^ 2)⁻¹)) *
        ((k_B * 300 / hbar) ^ 2) *
        (k_B * (((structW.sites.map SiteModel.atomic_mass).sum /
            (structW.sites.length : ℝ)) * amu_to_kg) *
          structW.volume ^ ((1 : ℝ) / 3) * 1e-10 / (hbar * (0:ℝ) ^ 2))) := by
  refine thermal_conductivity_slack_formula gridW structW false none (some 300) 300 0 rfl rfl ?_
  have hsel : selectIndices gridW none = .ok [] := by
    simp only [selectIndices, gridW]
    rw [show gridIndices [[(-1:ℝ)]] = [(0,0)] from rfl]
    simp only [List.filter_cons, List.filter_nil,
      show at2 [[(-1:ℝ)]] (0,0) = -1 from rfl, decide_eq_true_eq]
    norm_num
  simp only [average_gruneisen, resolveTemp, average_gruneisen_core, Except.bind, hsel]
  simp only [show gridW.multiplicities = some [1] from rfl, Except.bind]
  norm_num

/-- C5: for every analyzer and every positive `T0`, the Slack
conductivity at `theta_d = T0`, `t = 2*T0` is exactly half the value at
`theta_d = T0`, `t = T0`: the given temperature only rescales the
Debye-point value by `theta_d / t`, and errors are identical on both
sides. -/
theorem thermal_conductivity_slack_temperature_rescaling
    (p : GruneisenParameter) (sq : Bool) (lf : Option String) (T0 : ℝ) (h : 0 < T0) :
    thermal_conductivity_slack p sq lf (some T0) (some (2 * T0)) =
      (thermal_conductivity_slack p sq lf (some T0) (some T0)).map (fun x => x / 2) := by
  simp only [thermal_conductivity_slack]
  cases hs : p.structure_ with
  | none => rfl
  | some s =>
      simp only [resolveTemp, Except.bind]
      cases hg : average_gruneisen p (some T0) sq lf with
      | error e => rfl
      | ok mg =>
          simp only [Except.bind, Except.map, Except.ok.injEq]
          have hT : T0 ≠ 0 := ne_of_gt h
          rw [div_self hT, show T0 / (2 * T0) = 1 / 2 by
            rw [mul_comm, ← div_div, div_self hT]]
          ring

/-- Witness for C5 at a concrete analyzer and `T0 = 300`. -/
theorem thermal_conductivity_slack_temperature_rescaling_witness :
    thermal_conductivity_slack gridW false none (some 300) (some (2 * 300)) =
      (thermal_conductivity_slack gridW false none (some 300) (some 300)).map
        (fun x => x / 2) :=
  thermal_conductivity_slack_temperature_rescaling gridW false none 300 (by norm_num)

theorem zipWith_map_same {α β γ δ : Type} (f : α → β) (g : α → γ) (h : β → γ → δ)
    (k : α → δ) (hk : ∀ a, h (f a) (g a) = k a) :
    ∀ l : List α, List.zipWith h (l.map f) (l.map g) = l.map k := by
  intro l
  induction l with
  | nil => rfl
  | cons a l ih => simp [List.zipWith, hk, ih]

theorem zipWith4_map4_same {α β γ δ : Type} (f : α → β) (g : α → γ) (h : β → γ → δ)
    (k : α → δ) (hk : ∀ a, h (f a) (g a) = k a) (x : List (List (List (List α)))) :
    zipWith4 h (map4 f x) (map4 g x) = map4 k x := by
  unfold zipWith4 map4
  refine zipWith_map_same _ _ _ _ (fun l₃ => ?_) x
  refine zipWith_map_same _ _ _ _ (fun l₂ => ?_) l₃
  refine zipWith_map_same _ _ _ _ (fun l₁ => ?_) l₂
  exact zipWith_map_same _ _ _ _ hk l₁

/-- Reassembling `re + im * I` elementwise over the eigendisplacement
array is the identity. -/
theorem eigen_roundtrip (x : List (List (List (List ℂ)))) :
    zipWith4 (fun (a b : ℝ) => (a : ℂ) + (b : ℂ) * Complex.I)
      (map4 Complex.re x) (map4 Complex.im x) = x := by
  have h := zipWith4_map4_same Complex.re Complex.im
    (fun (a b : ℝ) => (a : ℂ) + (b : ℂ) * Complex.I) id (fun z => Complex.re_add_im z) x
  simpa [map4] using h

/-- C6: serializing an annotated band structure and deserializing the
dictionary reproduces qpoints, bands, gruneisen, eigendisplacements,
labels_dict and the optional structure exactly; when the structure is
absent the serialized dictionary omits the structure key (modelled as the
`none` value of its optional field) and the reconstructed object has no
structure. -/
theorem band_structure_dict_roundtrip (bs : GruneisenPhononBandStructure) :
    from_dict (as_dict bs) = bs ∧
      (bs.structure_ = none → (as_dict bs).structure_ = none) := by
  constructor
  · cases bs with
    | mk lr q b ld e g st => simp only [as_dict, from_dict, eigen_roundtrip]
  · intro h
    simp only [as_dict, h]

/-- Witness for C6 at a concrete band structure without a structure. -/
theorem band_structure_dict_roundtrip_witness :
    from_dict (as_dict bs0) = bs0 ∧ (as_dict bs0).structure_ = none :=
  ⟨(band_structure_dict_roundtrip bs0).1, (band_structure_dict_roundtrip bs0).2 rfl⟩

/-- Whenever multiplicities are present, the execution path of
`acoustic_debye_temp` agrees with its abstract relation to the
`debye_temp_limit` value. -/
theorem acoustic_debye_temp_run_eq (p : GruneisenParameter) (ws : List ℝ)
    (hm : p.multiplicities = some ws) :
    acoustic_debye_temp_run p = acoustic_debye_temp p := by
  simp only [acoustic_debye_temp_run, acoustic_debye_temp, debye_temp_limit_run, hm]
  cases p.structure_ <;> rfl

/-- C7 counterexample: with `limit_frequencies="debye"`, a supplied
temperature, a structure present and multiplicities unset,
`average_gruneisen` does NOT fail with one of this module's missing-data
`ValueError`s: line 114 evaluates `acoustic_debye_temp`, whose
`debye_temp_limit` property hands the unset multiplicities to the
external phonopy DOS service as mesh weights, and the failure escapes
from there before the multiplicities check at lines 124-126 is ever
reached. -/
theorem missing_data_errors_counterexample :
    gridDebyeBare.multiplicities = none ∧
    (gridDebyeBare.structure_).isSome = true ∧
    average_gruneisen gridDebyeBare (some 300) false (some "debye") =
      .error .externalDosFailure ∧
    ¬ GrunError.externalDosFailure.isMissingData := by
  refine ⟨rfl, rfl, ?_, fun h => h⟩
  simp only [average_gruneisen, resolveTemp, average_gruneisen_core, selectIndices,
    acoustic_debye_temp_run, debye_temp_limit_run,
    show gridDebyeBare.multiplicities = none from rfl,
    show gridDebyeBare.structure_ = some structW from rfl,
    Except.bind, Except.map]

/-- C7 (amended): `thermal_conductivity_slack` raises the missing-data
error whenever the structure is unset (for all other arguments);
`average_gruneisen` with a supplied temperature raises a missing-data
error whenever multiplicities are unset and `limit_frequencies` is
`None` or `"acoustic"`, or `"debye"` with the structure also unset (the
missing-structure error fires at line 237); with `"debye"` and a
structure present the call instead fails earlier, inside the external
DOS service that receives the unset multiplicities as mesh weights.  The
constructor stores both optional fields without validation, so neither
module error can be raised at construction time. -/
theorem missing_data_errors_amended :
    (∀ p sq lf θd t, p.structure_ = none →
        thermal_conductivity_slack p sq lf θd t = .error .missingStructure ∧
          GrunError.missingStructure.isMissingData) ∧
    (∀ p (tv : ℝ) sq lf, p.multiplicities = none →
        (lf = none ∨ lf = some "acoustic" ∨ (lf = some "debye" ∧ p.structure_ = none)) →
        ∃ e, average_gruneisen p (some tv) sq lf = .error e ∧ e.isMissingData) ∧
    (∀ p (tv : ℝ) sq s, p.multiplicities = none → p.structure_ = some s →
        average_gruneisen p (some tv) sq (some "debye") = .error .externalDosFailure) ∧
    (∀ q g w m st d, (GruneisenParameter.mk q g w m st d).multiplicities = m ∧
        (GruneisenParameter.mk q g w m st d).structure_ = st) := by
  refine ⟨?_, ?_, ?_, ?_⟩
  · intro p sq lf θd t hs
    exact ⟨by simp only [thermal_conductivity_slack, hs], trivial⟩
  · intro p tv sq lf hm hv
    rcases hv with h | h | ⟨h, hs⟩ <;> subst h
    · refine ⟨.missingMultiplicities, ?_, trivial⟩
      simp only [average_gruneisen, resolveTemp, average_gruneisen_core, selectIndices,
        hm, Except.bind]
    · refine ⟨.missingMultiplicities, ?_, trivial⟩
      simp only [average_gruneisen, resolveTemp, average_gruneisen_core, selectIndices,
        hm, Except.bind]
    · refine ⟨.missingStructure, ?_, trivial⟩
      simp only [average_gruneisen, resolveTemp, average_gruneisen_core, selectIndices,
        acoustic_debye_temp_run, hs, Except.bind, Except.map]
  · intro p tv sq st hm hs
    simp only [average_gruneisen, resolveTemp, average_gruneisen_core, selectIndices,
      acoustic_debye_temp_run, debye_temp_limit_run, hm, hs, Except.bind, Except.map]
  · intro q g w m st d
    exact ⟨rfl, rfl⟩

/-- Witness for the amended C7 at concrete analyzers. -/
theorem missing_data_errors_amended_witness :
    gridBare.structure_ = none ∧ gridBare.multiplicities = none ∧
    (thermal_conductivity_slack gridBare false none none none = .error .missingStructure ∧
      GrunError.missingStructure.isMissingData) ∧
    (∃ e, average_gruneisen gridBare (some 300) false none = .error e ∧ e.isMissingData) ∧
    average_gruneisen gridDebyeBare (some 310) false (some "debye") =
      .error .externalDosFailure :=
  ⟨rfl, rfl, missing_data_errors_amended.1 gridBare false none none none rfl,
    missing_data_errors_amended.2.1 gridBare 300 false none rfl (Or.inl rfl),
    missing_data_errors_amended.2.2.1 gridDebyeBare 310 false structW rfl rfl⟩

/-- C8: any `limit_frequencies` other than `None`, `"debye"` or
`"acoustic"` makes `average_gruneisen` fail with the invalid-argument
error, whose message contains the rejected value. -/
theorem invalid_limit_frequencies_error (p : GruneisenParameter) (tv : ℝ) (sq : Bool)
    (s : String) (hd : s ≠ "debye") (ha : s ≠ "acoustic") :
    average_gruneisen p (some tv) sq (some s) = .error (.invalidLimitFrequencies s) ∧
      ∃ pre post, errorMessage (.invalidLimitFrequencies s) = pre ++ s ++ post := by
  constructor
  · simp only [average_gruneisen, resolveTemp, average_gruneisen_core,
      selectIndices_invalid p s hd ha, Except.bind]
  · exact ⟨"", " is not an accepted value for limit_frequencies.", by
      simp [errorMessage]⟩

/-- Witness for C8 with the rejected value `"bogus"`. -/
theorem invalid_limit_frequencies_error_witness :
    "bogus" ≠ "debye" ∧ "bogus" ≠ "acoustic" ∧
    (average_gruneisen gridBare (some 300) false (some "bogus") =
        .error (.invalidLimitFrequencies "bogus") ∧
      ∃ pre post, errorMessage (.invalidLimitFrequencies "bogus") =
        pre ++ "bogus" ++ post) :=
  ⟨by decide, by decide,
    invalid_limit_frequencies_error gridBare 300 false "bogus" (by decide) (by decide)⟩

/-- C9: with a structure present, `acoustic_debye_temp` equals
`debye_temp_limit` divided by the cube root of the number of atoms in the
structure; without a structure it fails with the missing-data error. -/
theorem acoustic_debye_temp_spec :
    (∀ p s, p.structure_ = some s →
        acoustic_debye_temp p =
          .ok (p.debye_temp_limit / (s.sites.length : ℝ) ^ ((1 : ℝ) / 3))) ∧
    (∀ p, p.structure_ = none →
        acoustic_debye_temp p = .error .missingStructure ∧
          GrunError.missingStructure.isMissingData) := by
  constructor
  · intro p s hs
    simp only [acoustic_debye_temp, hs]
  · intro p hs
    exact ⟨by simp only [acoustic_debye_temp, hs], trivial⟩

/-- Witness for C9 at concrete analyzers with and without a structure. -/
theorem acoustic_debye_temp_spec_witness :
    acoustic_debye_temp gridW =
      .ok (gridW.debye_temp_limit / (structW.sites.length : ℝ) ^ ((1 : ℝ) / 3)) ∧
    acoustic_debye_temp gridBare = .error .missingStructure :=
  ⟨acoustic_debye_temp_spec.1 gridW structW rfl,
    (acoustic_debye_temp_spec.2 gridBare rfl).1⟩

/-- C10: with an unrecognized `limit_frequencies` and a supplied
temperature, the invalid-argument error is raised even when
multiplicities are `None`: the dispatch happens before the
missing-multiplicities check. -/
theorem invalid_arg_precedes_missing_multiplicities (p : GruneisenParameter) (tv : ℝ)
    (sq : Bool) (s : String) (_hm : p.multiplicities = none)
    (hd : s ≠ "debye") (ha : s ≠ "acoustic") :
    average_gruneisen p (some tv) sq (some s) = .error (.invalidLimitFrequencies s) := by
  simp only [average_gruneisen, resolveTemp, average_gruneisen_core,
    selectIndices_invalid p s hd ha, Except.bind]

/-- Witness for C10: the analyzer without multiplicities still reports
the invalid-argument error first. -/
theorem invalid_arg_precedes_missing_multiplicities_witness :
    gridBare.multiplicities = none ∧
    average_gruneisen gridBare (some 250) false (some "bogus") =
      .error (.invalidLimitFrequencies "bogus") :=
  ⟨rfl, invalid_arg_precedes_missing_multiplicities gridBare 250 false "bogus" rfl
    (by decide) (by decide)⟩

end PmgGruneisen

end
